import Mathlib

/-
Verification development for the per-chat music playback coordinator in
`src/main.py` (a Telegram music bot).

The embedding models the global mutable dictionaries

    queues       : Dict[int, deque]   (deque created with maxlen=MAX_QUEUE_SIZE)
    now_playing  : Dict[int, Dict]
    loop_mode    : Dict[int, bool]
    user_volumes : Dict[int, int]

as total functions from chat ids, where an absent dictionary key is
represented by the Python-default value the code reads for it
(`[]` for a chat's queue via `get_queue`, `none` for `now_playing`,
`false` for `loop_mode.get(chat_id, False)`, `none` for
`user_volumes.get(chat_id, DEFAULT_VOLUME)`).

The session transport (pytgcalls) is external; a play attempt's observable
result is abstracted as a `TransportResult`: the join/change succeeded,
raised `GroupCallNotFound`/`NoActiveGroupCall` (the "no active voice chat"
branch of `play_song`), or raised some other exception reaching the outer
`except` of `play_song` (which notifies the error and recurses into
`play_next`).  A *list* of transport results scripts the successive play
attempts; a missing entry defaults to success.

The recursion `play_song` -> `play_next` -> `play_song` of the source has
no structural measure (with loop mode on and a persistently failing
transport it does not terminate), so the embedding carries an explicit
`fuel` bound on the number of *failed* attempts it follows; every theorem
below supplies enough fuel that the fuel-exhaustion branch is never
reached on the executions it talks about.

Messages sent back to the chat (`bot.send_message`, `message.reply_text`,
`callback_query.answer`) are modelled as an ordered list of structured
`Outcome`s.
-/

namespace MusicBot

/-- A resolved song dictionary, as produced by `get_youtube_stream_url`
(`src/main.py` lines 98-136). -/
structure Song where
  title : String
  duration : Nat
  stream_url : String
  thumbnail : Option String
  youtube_url : String
  channel : String
deriving DecidableEq

/-- `MAX_QUEUE_SIZE = 100` (`src/main.py` line 32). -/
def MAX_QUEUE_SIZE : Nat := 100

/-- `DEFAULT_VOLUME = 80` (`src/main.py` line 34). -/
def DEFAULT_VOLUME : Int := 80

/-- The four global per-chat dictionaries (`src/main.py` lines 55-58). -/
structure BotState where
  queues : Int → List Song
  now_playing : Int → Option Song
  loop_mode : Int → Bool
  user_volumes : Int → Option Int

/-- Point update of a dictionary, `d[k] = v`. -/
def upd {α : Type} (f : Int → α) (k : Int) (v : α) : Int → α :=
  fun x => if x = k then v else f x

/-- The process-start state: all four dictionaries empty. -/
def initialState : BotState :=
  { queues := fun _ => []
    now_playing := fun _ => none
    loop_mode := fun _ => false
    user_volumes := fun _ => none }

/-- Observable result of one `call.join_group_call` / `call.change_stream` /
`call.set_my_volume` round in `play_song` (`src/main.py` lines 184-194):
everything succeeded, the join raised `GroupCallNotFound`/`NoActiveGroupCall`,
or some other exception escaped to the outer handler at line 251. -/
inductive TransportResult
  | ok
  | noActiveSession
  | otherError
deriving DecidableEq

/-- Structured notifications the handlers emit back to the chat. -/
inductive Outcome
  | playing (song : Song) (volume : Int)
  | errorNoActiveSession
  | playError
  | queueFinished
  | queuedPos (song : Song) (position : Nat)
  | queuedCb (song : Song)
  | queueFull
  | skipping
  | nothingPlaying
  | stopped
  | stopError
  | volumeSet (v : Int)
  | volumeDeferred (v : Int)
  | invalidVolume
deriving DecidableEq

/-- `queue.append(song)` on a `deque(maxlen=MAX_QUEUE_SIZE)`
(`get_queue`, `src/main.py` line 85): appending to a full deque silently
discards the leftmost element. -/
def dequeAppend (q : List Song) (song : Song) : List Song :=
  if MAX_QUEUE_SIZE ≤ q.length then q.tail ++ [song] else q ++ [song]

/-- Result of the non-recursive prefix of `play_song`
(`src/main.py` lines 167-249): line 171 sets `now_playing[chat_id] = song`
*before* the transport is touched, line 181 reads the volume to apply,
then the join/change either succeeds (and the "Now Playing" message is
sent), hits the `GroupCallNotFound`/`NoActiveGroupCall` branch (line 186:
notify and `return`, with `now_playing` left set), or raises to the outer
handler (line 251: the caller will notify the error and recurse). -/
inductive PlayStep
  | played (st : BotState) (song : Song) (volume : Int)
  | noSession (st : BotState)
  | failed (st : BotState)

/-- The non-recursive prefix of `play_song` (`src/main.py` lines 167-249). -/
def play_song_attempt (st : BotState) (chat : Int) (song : Song)
    (tr : TransportResult) : PlayStep :=
  let st1 : BotState := { st with now_playing := upd st.now_playing chat (some song) }
  let vol : Int := (st.user_volumes chat).getD DEFAULT_VOLUME
  match tr with
  | TransportResult.ok => PlayStep.played st1 song vol
  | TransportResult.noActiveSession => PlayStep.noSession st1
  | TransportResult.otherError => PlayStep.failed st1

/-- The branch selection of `play_next` (`src/main.py` lines 148-161):
if `loop_mode.get(chat_id, False) and chat_id in now_playing`, replay the
current song; else if the queue is non-empty, `popleft` it; else signal
queue exhaustion (`none`). -/
def pick (st : BotState) (chat : Int) : Option (BotState × Song) :=
  match st.loop_mode chat, st.now_playing chat with
  | true, some s => some (st, s)
  | _, _ =>
    match st.queues chat with
    | s :: rest => some ({ st with queues := upd st.queues chat rest }, s)
    | [] => none

/-- `play_next` (`src/main.py` lines 148-165), together with the
error-recovery recursion of `play_song` (line 254: on a generic play
failure, notify the error and call `play_next` again).  `fuel` bounds the
number of failed attempts that are followed; `trs` scripts the transport
result of each successive play attempt (missing entries default to
success).  On queue exhaustion, line 164 pops `now_playing` and line 165
sends "Queue finished!" unconditionally. -/
def play_next : Nat → List TransportResult → BotState → Int → BotState × List Outcome
  | fuel, trs, st, chat =>
    match pick st chat with
    | none =>
      ({ st with now_playing := upd st.now_playing chat none }, [Outcome.queueFinished])
    | some (st1, song) =>
      match play_song_attempt st1 chat song (trs.headD TransportResult.ok) with
      | PlayStep.played st2 s v => (st2, [Outcome.playing s v])
      | PlayStep.noSession st2 => (st2, [Outcome.errorNoActiveSession])
      | PlayStep.failed st2 =>
        match fuel with
        | 0 => (st2, [Outcome.playError])
        | Nat.succ f =>
          let r := play_next f trs.tail st2 chat
          (r.1, Outcome.playError :: r.2)

/-- `play_song` (`src/main.py` lines 167-254) as an entry point: the
non-recursive attempt, and on a generic failure the outer handler's
notify-then-`play_next` recursion. -/
def play_song (fuel : Nat) (trs : List TransportResult) (st : BotState)
    (chat : Int) (song : Song) : BotState × List Outcome :=
  match play_song_attempt st chat song (trs.headD TransportResult.ok) with
  | PlayStep.played st2 s v => (st2, [Outcome.playing s v])
  | PlayStep.noSession st2 => (st2, [Outcome.errorNoActiveSession])
  | PlayStep.failed st2 =>
    match fuel with
    | 0 => (st2, [Outcome.playError])
    | Nat.succ f =>
      let r := play_next f trs.tail st2 chat
      (r.1, Outcome.playError :: r.2)

/-- The state-machine core of `play_command` (`src/main.py` lines 334-347),
after the query has been resolved to a song: if `chat_id in now_playing`,
reject when `len(queue) >= MAX_QUEUE_SIZE`, else append and report the
position `len(queue)` after the append; otherwise play immediately. -/
def play_command (fuel : Nat) (trs : List TransportResult) (st : BotState)
    (chat : Int) (song : Song) : BotState × List Outcome :=
  match st.now_playing chat with
  | some _ =>
    let q := st.queues chat
    if MAX_QUEUE_SIZE ≤ q.length then
      (st, [Outcome.queueFull])
    else
      ({ st with queues := upd st.queues chat (dequeAppend q song) },
        [Outcome.queuedPos song (q.length + 1)])
  | none => play_song fuel trs st chat song

/-- The `play_` branch of `callback_handler` (`src/main.py` lines 587-608),
after the chosen search result has been resolved to a song: if
`chat_id in now_playing`, append to the deque with *no* queue-size check
(line 602); otherwise play immediately. -/
def callback_play (fuel : Nat) (trs : List TransportResult) (st : BotState)
    (chat : Int) (song : Song) : BotState × List Outcome :=
  match st.now_playing chat with
  | some _ =>
    ({ st with queues := upd st.queues chat (dequeAppend (st.queues chat) song) },
      [Outcome.queuedCb song])
  | none => play_song fuel trs st chat song

/-- The `skip` branch of `control_commands` (`src/main.py` lines 432-437):
if `chat_id in now_playing`, reply "Skipping..." and call `play_next`;
else reply "Nothing is playing!". -/
def control_skip (fuel : Nat) (trs : List TransportResult) (st : BotState)
    (chat : Int) : BotState × List Outcome :=
  match st.now_playing chat with
  | some _ =>
    let r := play_next fuel trs st chat
    (r.1, Outcome.skipping :: r.2)
  | none => (st, [Outcome.nothingPlaying])

/-- The `skip` branch of `callback_handler` (`src/main.py` lines 563-568):
identical logic to the command path. -/
def callback_skip (fuel : Nat) (trs : List TransportResult) (st : BotState)
    (chat : Int) : BotState × List Outcome :=
  match st.now_playing chat with
  | some _ =>
    let r := play_next fuel trs st chat
    (r.1, Outcome.skipping :: r.2)
  | none => (st, [Outcome.nothingPlaying])

/-- The `stop` branch of `control_commands` (`src/main.py` lines 439-445):
`call.leave_group_call` first (if it raises, the `except` at line 447
reports the error and *skips* all the clearing), then clear the queue,
pop `now_playing`, pop `loop_mode`.  `leaveOk` is the transport leave's
result. -/
def control_stop (st : BotState) (chat : Int) (leaveOk : Bool) :
    BotState × List Outcome :=
  if leaveOk then
    ({ st with
        queues := upd st.queues chat []
        now_playing := upd st.now_playing chat none
        loop_mode := upd st.loop_mode chat false },
      [Outcome.stopped])
  else
    (st, [Outcome.stopError])

/-- The `stop` branch of `callback_handler` (`src/main.py` lines 575-581):
leave, clear the queue, pop `now_playing` — but unlike the command path it
never touches `loop_mode`. -/
def callback_stop (st : BotState) (chat : Int) (leaveOk : Bool) :
    BotState × List Outcome :=
  if leaveOk then
    ({ st with
        queues := upd st.queues chat []
        now_playing := upd st.now_playing chat none },
      [Outcome.stopped])
  else
    (st, [Outcome.stopError])

/-- `volume_command` (`src/main.py` lines 458-479), after the argument has
been parsed to an integer `v`: if `1 <= v <= 200`, store
`user_volumes[chat_id] = v` and then best-effort apply it to the transport
(`applyOk`; on failure the stored value is kept and the "will be set on
next song" reply is sent); else reply that the volume is invalid, leaving
the state untouched. -/
def volume_command (st : BotState) (chat : Int) (v : Int) (applyOk : Bool) :
    BotState × List Outcome :=
  if 1 ≤ v ∧ v ≤ 200 then
    let st1 : BotState := { st with user_volumes := upd st.user_volumes chat (some v) }
    if applyOk then (st1, [Outcome.volumeSet v]) else (st1, [Outcome.volumeDeferred v])
  else
    (st, [Outcome.invalidVolume])

/-- Iterate `play_next` with an always-succeeding transport, collecting the
tracks reported as now playing, in order. -/
def playedSeq : Nat → BotState → Int → List Song
  | 0, _, _ => []
  | Nat.succ n, st, chat =>
    let r := play_next 0 [TransportResult.ok] st chat
    (r.2.filterMap fun o =>
      match o with
      | Outcome.playing s _ => some s
      | _ => none) ++ playedSeq n r.1 chat

/-- Perform a sequence of `/play` commands (`play_command`) in order. -/
def enqueueAll (st : BotState) (chat : Int) : List Song → BotState
  | [] => st
  | s :: rest => enqueueAll (play_command 0 [] st chat s).1 chat rest

/-- Concrete song used in witnesses and counterexamples. -/
def songA : Song :=
  { title := "a", duration := 10, stream_url := "sa", thumbnail := none,
    youtube_url := "ya", channel := "ca" }

/-- Second concrete song used in witnesses and counterexamples. -/
def songB : Song :=
  { title := "b", duration := 20, stream_url := "sb", thumbnail := none,
    youtube_url := "yb", channel := "cb" }

/-- A chat that is `Playing` `songA` with an empty queue and loop off. -/
def stPlayingNoQueue : BotState :=
  { initialState with now_playing := upd initialState.now_playing 1 (some songA) }

/-- A chat that is `Playing` `songA` with loop mode on and `songB` queued. -/
def stLoopOn : BotState :=
  { initialState with
      now_playing := upd initialState.now_playing 1 (some songA)
      loop_mode := upd initialState.loop_mode 1 true
      queues := upd initialState.queues 1 [songB] }

/-- A chat that is `Playing` `songA` with loop off and `songB` queued. -/
def stDrain : BotState :=
  { initialState with
      now_playing := upd initialState.now_playing 1 (some songA)
      queues := upd initialState.queues 1 [songB] }

/-- A chat that is `Playing` `songA` with a queue already at the bound. -/
def stFullQueue : BotState :=
  { initialState with
      now_playing := upd initialState.now_playing 1 (some songA)
      queues := upd initialState.queues 1 (List.replicate MAX_QUEUE_SIZE songA) }

section Helpers

theorem upd_apply {α : Type} (f : Int → α) (k : Int) (v : α) : upd f k v k = v := by
  simp [upd]

theorem upd_eq_self {α : Type} (f : Int → α) (k : Int) (v : α) (h : f k = v) :
    upd f k v = f := by
  funext x
  by_cases hx : x = k
  · subst hx; simp [upd, h]
  · simp [upd, hx]

theorem pick_loop (st : BotState) (chat : Int) (s : Song)
    (hl : st.loop_mode chat = true) (hn : st.now_playing chat = some s) :
    pick st chat = some (st, s) := by
  simp [pick, hl, hn]

theorem pick_pop (st : BotState) (chat : Int) (s : Song) (rest : List Song)
    (hl : st.loop_mode chat = false) (hq : st.queues chat = s :: rest) :
    pick st chat = some ({ st with queues := upd st.queues chat rest }, s) := by
  simp [pick, hl, hq]

theorem pick_none_loop_off (st : BotState) (chat : Int)
    (hl : st.loop_mode chat = false) (hq : st.queues chat = []) :
    pick st chat = none := by
  simp [pick, hl, hq]

theorem play_next_finish (fuel : Nat) (trs : List TransportResult) (st : BotState)
    (chat : Int) (h : pick st chat = none) :
    play_next fuel trs st chat
      = ({ st with now_playing := upd st.now_playing chat none },
          [Outcome.queueFinished]) := by
  unfold play_next
  rw [h]

theorem play_next_ok (fuel : Nat) (trs : List TransportResult) (st st1 : BotState)
    (chat : Int) (s : Song)
    (hp : pick st chat = some (st1, s))
    (htr : trs.headD TransportResult.ok = TransportResult.ok) :
    play_next fuel trs st chat
      = ({ st1 with now_playing := upd st1.now_playing chat (some s) },
          [Outcome.playing s ((st1.user_volumes chat).getD DEFAULT_VOLUME)]) := by
  unfold play_next
  rw [hp, htr]
  rfl

theorem play_next_noSession (fuel : Nat) (trs : List TransportResult) (st st1 : BotState)
    (chat : Int) (s : Song)
    (hp : pick st chat = some (st1, s))
    (htr : trs.headD TransportResult.ok = TransportResult.noActiveSession) :
    play_next fuel trs st chat
      = ({ st1 with now_playing := upd st1.now_playing chat (some s) },
          [Outcome.errorNoActiveSession]) := by
  unfold play_next
  rw [hp, htr]
  rfl

theorem play_next_failed_zero (trs : List TransportResult) (st st1 : BotState)
    (chat : Int) (s : Song)
    (hp : pick st chat = some (st1, s))
    (htr : trs.headD TransportResult.ok = TransportResult.otherError) :
    play_next 0 trs st chat
      = ({ st1 with now_playing := upd st1.now_playing chat (some s) },
          [Outcome.playError]) := by
  unfold play_next
  rw [hp, htr]
  rfl

theorem play_next_failed_succ (f : Nat) (trs : List TransportResult) (st st1 : BotState)
    (chat : Int) (s : Song)
    (hp : pick st chat = some (st1, s))
    (htr : trs.headD TransportResult.ok = TransportResult.otherError) :
    play_next (f + 1) trs st chat
      = ((play_next f trs.tail
            { st1 with now_playing := upd st1.now_playing chat (some s) } chat).1,
          Outcome.playError ::
            (play_next f trs.tail
              { st1 with now_playing := upd st1.now_playing chat (some s) } chat).2) := by
  conv_lhs => rw [play_next]
  rw [hp, htr]
  rfl

end Helpers

/-- C1: the claim says that `enqueueOrPlay` on an `Idle` chat whose transport
join reports no active session emits the no-active-session error, the chat
remains `Idle`, and `nowPlaying` stays unset.  Evaluating the code at that
input: the error is emitted and the queue is untouched, but
`play_song` (line 171) has already set `now_playing[chat] = song` and the
`GroupCallNotFound`/`NoActiveGroupCall` branch (lines 186-188) returns
without clearing it, so the chat is left marked as playing the failed
track rather than `Idle`. -/
theorem claim_C1_code_eval :
    (play_command 0 [TransportResult.noActiveSession] initialState 1 songA).2
        = [Outcome.errorNoActiveSession]
  ∧ (play_command 0 [TransportResult.noActiveSession] initialState 1 songA).1.now_playing 1
        = some songA
  ∧ (play_command 0 [TransportResult.noActiveSession] initialState 1 songA).1.queues 1
        = [] := by
  refine ⟨by decide, by decide, by decide⟩

/-- C3: the claim says that an enqueue against a queue already holding
`MAX_QUEUE_SIZE` tracks fails with `QueueFull` and leaves the queue
unchanged on every enqueue path.  Evaluating the code at a full queue:
the `/play` command path (lines 338-340) does reject and leave the queue
unchanged, but the search-result callback path (line 602) has no bound
check — it appends to the `deque(maxlen=100)`, which silently evicts the
oldest queued track, and reports the track as queued. -/
theorem claim_C3_code_eval :
    (play_command 0 [] stFullQueue 1 songB).2 = [Outcome.queueFull]
  ∧ (play_command 0 [] stFullQueue 1 songB).1.queues 1
        = List.replicate MAX_QUEUE_SIZE songA
  ∧ (callback_play 0 [] stFullQueue 1 songB).2 = [Outcome.queuedCb songB]
  ∧ (callback_play 0 [] stFullQueue 1 songB).1.queues 1
        = List.replicate 99 songA ++ [songB] := by
  refine ⟨by decide, by decide, by decide, by decide⟩

/-- C5: the claim says `stop` clears the queue, `nowPlaying` and the loop
flag on every path that exposes it.  Evaluating the code on a chat with
the loop flag set: the `/stop` command path (lines 439-444) clears all
three, but the inline-button stop path (lines 575-579) clears the queue
and `now_playing` while leaving `loop_mode[chat]` set. -/
theorem claim_C5_code_eval :
    (control_stop stLoopOn 1 true).1.loop_mode 1 = false
  ∧ (control_stop stLoopOn 1 true).1.now_playing 1 = none
  ∧ (control_stop stLoopOn 1 true).1.queues 1 = []
  ∧ (control_stop stLoopOn 1 true).2 = [Outcome.stopped]
  ∧ (callback_stop stLoopOn 1 true).1.now_playing 1 = none
  ∧ (callback_stop stLoopOn 1 true).1.queues 1 = []
  ∧ (callback_stop stLoopOn 1 true).2 = [Outcome.stopped]
  ∧ (callback_stop stLoopOn 1 true).1.loop_mode 1 = true := by
  refine ⟨by decide, by decide, by decide, by decide, by decide, by decide,
    by decide, by decide⟩

/-- C2 counterexample: the claim asserts that for *every* starting state
the transport-error cascade terminates after at most queue-length attempts
because each failed attempt removes one queued track.  At the concrete
state with loop mode on, `songA` current and a one-track queue (`songB`),
four consecutive failed attempts replay `songA` each time: the queue is
never consulted, no queued track is removed, and the chat never reaches
`Idle` — the cascade is not bounded by the queue length. -/
theorem claim_C2_counterexample :
    (play_next 3 (List.replicate 4 TransportResult.otherError) stLoopOn 1).2
        = List.replicate 4 Outcome.playError
  ∧ (play_next 3 (List.replicate 4 TransportResult.otherError) stLoopOn 1).1.queues 1
        = [songB]
  ∧ (play_next 3 (List.replicate 4 TransportResult.otherError) stLoopOn 1).1.now_playing 1
        = some songA := by
  refine ⟨by decide, by decide, by decide⟩

/-- C2 (amended): when loop mode is off, the failure cascade on a queue of
length `n` performs exactly `n` failed attempts (each removing one queued
track and notifying the error), then ends with the queue empty, the chat
`Idle`, and the queue-finished notification — so `n` units of fuel
suffice and the cascade is bounded by the queue length. -/
theorem claim_C2_amended_drain (q : List Song) (st : BotState) (chat : Int)
    (hl : st.loop_mode chat = false) (hq : st.queues chat = q) :
    (play_next q.length (List.replicate q.length TransportResult.otherError) st chat).1.queues chat
        = []
  ∧ (play_next q.length (List.replicate q.length TransportResult.otherError) st chat).1.now_playing chat
        = none
  ∧ (play_next q.length (List.replicate q.length TransportResult.otherError) st chat).2
        = List.replicate q.length Outcome.playError ++ [Outcome.queueFinished] := by
  induction q generalizing st with
  | nil =>
    rw [play_next_finish _ _ st chat (pick_none_loop_off st chat hl hq)]
    exact ⟨hq, upd_apply _ _ _, rfl⟩
  | cons s rest ih =>
    have hp := pick_pop st chat s rest hl hq
    have htr : (List.replicate (rest.length + 1) TransportResult.otherError).headD
        TransportResult.ok = TransportResult.otherError := by
      rw [List.replicate_succ]; rfl
    have htl : (List.replicate (rest.length + 1) TransportResult.otherError).tail
        = List.replicate rest.length TransportResult.otherError := by
      rw [List.replicate_succ]
      rfl
    rw [List.length_cons,
      play_next_failed_succ rest.length _ st _ chat s hp htr, htl]
    refine ⟨?_, ?_, ?_⟩
    · exact (ih _ (by exact hl) (by simp [upd])).1
    · exact (ih _ (by exact hl) (by simp [upd])).2.1
    · rw [List.replicate_succ, List.cons_append]
      exact congrArg (List.cons Outcome.playError)
        ((ih _ (by exact hl) (by simp [upd])).2.2)

/-- C2 witness: the amended statement at a concrete `Playing` chat with
loop off and queue `[songB]` and an always-failing transport. -/
theorem claim_C2_witness :
    stDrain.loop_mode 1 = false
  ∧ stDrain.queues 1 = [songB]
  ∧ ((play_next 1 [TransportResult.otherError] stDrain 1).1.queues 1 = []
      ∧ (play_next 1 [TransportResult.otherError] stDrain 1).1.now_playing 1 = none
      ∧ (play_next 1 [TransportResult.otherError] stDrain 1).2
          = [Outcome.playError, Outcome.queueFinished]) :=
  ⟨rfl, by decide, claim_C2_amended_drain [songB] stDrain 1 rfl (by decide)⟩

/-- C4 counterexample: the claim asserts that an `advance` hitting a chat
that is already `Idle` produces no notification.  Concretely, after one
`advance` has moved a playing chat with an empty queue to `Idle`, a second
`advance` sends the "Queue finished!" notification again (line 165 runs
unconditionally in the queue-exhausted branch). -/
theorem claim_C4_counterexample :
    (play_next 0 [] stPlayingNoQueue 1).1.now_playing 1 = none
  ∧ (play_next 0 [] (play_next 0 [] stPlayingNoQueue 1).1 1).2
        = [Outcome.queueFinished]
  ∧ (play_next 0 [] (play_next 0 [] stPlayingNoQueue 1).1 1).2 ≠ [] := by
  refine ⟨by decide, by decide, by decide⟩

/-- C4 (amended): two advances in immediate succession on a playing chat
with an empty queue (loop off) produce at most one advance's worth of
state change — the first moves the chat to `Idle`, the second leaves the
state exactly as it was — but the second advance repeats the
queue-finished notification instead of staying silent. -/
theorem claim_C4_amended_idem (st : BotState) (chat : Int) (t : Song)
    (f1 f2 : Nat) (trs1 trs2 : List TransportResult)
    (_hnp : st.now_playing chat = some t) (hlp : st.loop_mode chat = false)
    (hq : st.queues chat = []) :
    (play_next f1 trs1 st chat).1.now_playing chat = none
  ∧ (play_next f1 trs1 st chat).2 = [Outcome.queueFinished]
  ∧ (play_next f2 trs2 (play_next f1 trs1 st chat).1 chat).1
      = (play_next f1 trs1 st chat).1
  ∧ (play_next f2 trs2 (play_next f1 trs1 st chat).1 chat).2
      = [Outcome.queueFinished] := by
  rw [play_next_finish f1 trs1 st chat (pick_none_loop_off st chat hlp hq)]
  rw [play_next_finish f2 trs2
      { st with now_playing := upd st.now_playing chat none } chat
      (pick_none_loop_off { st with now_playing := upd st.now_playing chat none } chat
        hlp hq)]
  refine ⟨upd_apply _ _ _, rfl, ?_, rfl⟩
  rw [upd_eq_self (upd st.now_playing chat none) chat none (upd_apply _ _ _)]

/-- C4 witness: the amended statement at a concrete playing chat with an
empty queue. -/
theorem claim_C4_witness :
    stPlayingNoQueue.now_playing 1 = some songA
  ∧ stPlayingNoQueue.loop_mode 1 = false
  ∧ stPlayingNoQueue.queues 1 = []
  ∧ ((play_next 0 [] stPlayingNoQueue 1).1.now_playing 1 = none
      ∧ (play_next 0 [] stPlayingNoQueue 1).2 = [Outcome.queueFinished]
      ∧ (play_next 0 [] (play_next 0 [] stPlayingNoQueue 1).1 1).1
          = (play_next 0 [] stPlayingNoQueue 1).1
      ∧ (play_next 0 [] (play_next 0 [] stPlayingNoQueue 1).1 1).2
          = [Outcome.queueFinished]) :=
  ⟨rfl, rfl, rfl,
    claim_C4_amended_idem stPlayingNoQueue 1 songA 0 0 [] [] rfl rfl rfl⟩

/-- A successful enqueue through the `/play` command: with a current track
and the queue strictly under the bound, the track is appended on the right
and its position is reported; nothing else changes. -/
theorem play_command_enqueue (fuel : Nat) (trs : List TransportResult)
    (st : BotState) (chat : Int) (song t : Song)
    (hnp : st.now_playing chat = some t)
    (hlen : (st.queues chat).length < MAX_QUEUE_SIZE) :
    play_command fuel trs st chat song
      = ({ st with queues := upd st.queues chat (st.queues chat ++ [song]) },
          [Outcome.queuedPos song ((st.queues chat).length + 1)]) := by
  simp only [play_command, hnp]
  rw [if_neg (Nat.not_le.mpr hlen)]
  unfold dequeAppend
  rw [if_neg (Nat.not_le.mpr hlen)]

/-- Enqueueing a list of tracks one by one through the `/play` command
appends them in order and touches nothing but the queue. -/
theorem enqueueAll_preserves (l : List Song) (st : BotState) (chat : Int) (t : Song)
    (hnp : st.now_playing chat = some t)
    (hlen : (st.queues chat).length + l.length ≤ MAX_QUEUE_SIZE) :
    (enqueueAll st chat l).queues chat = st.queues chat ++ l
  ∧ (enqueueAll st chat l).now_playing = st.now_playing
  ∧ (enqueueAll st chat l).loop_mode = st.loop_mode := by
  induction l generalizing st with
  | nil => exact ⟨(List.append_nil _).symm, rfl, rfl⟩
  | cons s rest ih =>
    have hlt : (st.queues chat).length < MAX_QUEUE_SIZE := by
      simp only [List.length_cons] at hlen
      omega
    rw [enqueueAll, play_command_enqueue 0 [] st chat s t hnp hlt]
    have hlen2 :
        ((({ st with queues := upd st.queues chat (st.queues chat ++ [s]) } : BotState).queues
            chat).length) + rest.length ≤ MAX_QUEUE_SIZE := by
      simp only [List.length_cons] at hlen
      simp [upd]
      omega
    obtain ⟨a, b, c⟩ :=
      ih { st with queues := upd st.queues chat (st.queues chat ++ [s]) } hnp hlen2
    refine ⟨?_, ?_, ?_⟩
    · show (enqueueAll { st with queues := upd st.queues chat (st.queues chat ++ [s]) }
          chat rest).queues chat = st.queues chat ++ s :: rest
      rw [a]
      simp [upd]
    · show (enqueueAll { st with queues := upd st.queues chat (st.queues chat ++ [s]) }
          chat rest).now_playing = st.now_playing
      exact b
    · show (enqueueAll { st with queues := upd st.queues chat (st.queues chat ++ [s]) }
          chat rest).loop_mode = st.loop_mode
      exact c

/-- Repeated `advance` with a succeeding transport and loop off plays the
queue strictly front to back. -/
theorem playedSeq_fifo (l : List Song) (st : BotState) (chat : Int)
    (hl : st.loop_mode chat = false) (hq : st.queues chat = l) :
    playedSeq l.length st chat = l := by
  induction l generalizing st with
  | nil => rfl
  | cons s rest ih =>
    rw [List.length_cons]
    simp only [playedSeq]
    rw [play_next_ok 0 [TransportResult.ok] st _ chat s
      (pick_pop st chat s rest hl hq) rfl]
    simp only [List.filterMap]
    exact congrArg (List.cons s) (ih _ (by exact hl) (by simp [upd]))

/-- C6: enqueueing any list of tracks while a chat is `Playing` (all
enqueues under the bound succeed) and then advancing with loop off plays
exactly those tracks in the order they were appended — strict FIFO, for
every queue length up to `MAX_QUEUE_SIZE`. -/
theorem claim_C6_fifo (l : List Song) (st : BotState) (chat : Int) (t : Song)
    (hnp : st.now_playing chat = some t) (hlp : st.loop_mode chat = false)
    (hq : st.queues chat = []) (hlen : l.length ≤ MAX_QUEUE_SIZE) :
    (enqueueAll st chat l).queues chat = l
  ∧ playedSeq l.length (enqueueAll st chat l) chat = l := by
  obtain ⟨a, b, c⟩ := enqueueAll_preserves l st chat t hnp
    (by rw [hq]; simpa using hlen)
  have hq1 : (enqueueAll st chat l).queues chat = l := by
    rw [a, hq]
    simp
  refine ⟨hq1, playedSeq_fifo l _ chat ?_ hq1⟩
  rw [c]
  exact hlp

/-- C6 witness: the FIFO statement at a concrete playing chat and a
two-track enqueue sequence. -/
theorem claim_C6_witness :
    stPlayingNoQueue.now_playing 1 = some songA
  ∧ stPlayingNoQueue.loop_mode 1 = false
  ∧ stPlayingNoQueue.queues 1 = []
  ∧ ([songB, songA].length ≤ MAX_QUEUE_SIZE)
  ∧ ((enqueueAll stPlayingNoQueue 1 [songB, songA]).queues 1 = [songB, songA]
      ∧ playedSeq 2 (enqueueAll stPlayingNoQueue 1 [songB, songA]) 1
          = [songB, songA]) :=
  ⟨rfl, rfl, rfl, by decide,
    claim_C6_fifo [songB, songA] stPlayingNoQueue 1 songA rfl rfl rfl (by decide)⟩

/-- C7: with loop mode on and a current track, every `advance` — whatever
the transport does, including entire failure cascades — leaves the queue
map untouched, keeps the same current track, leaves the loop flags
untouched, and every track it reports as playing is that same current
track: the queue is never read or popped. -/
theorem claim_C7_loop (fuel : Nat) (trs : List TransportResult) (st : BotState)
    (chat : Int) (t : Song)
    (hlp : st.loop_mode chat = true) (hnp : st.now_playing chat = some t) :
    (play_next fuel trs st chat).1.queues = st.queues
  ∧ (play_next fuel trs st chat).1.now_playing chat = some t
  ∧ (play_next fuel trs st chat).1.loop_mode = st.loop_mode
  ∧ ∀ s v, Outcome.playing s v ∈ (play_next fuel trs st chat).2 → s = t := by
  induction fuel generalizing trs st with
  | zero =>
    have hp := pick_loop st chat t hlp hnp
    rcases htr : trs.headD TransportResult.ok with _ | _ | _
    · rw [play_next_ok 0 trs st st chat t hp htr]
      refine ⟨rfl, upd_apply _ _ _, rfl, ?_⟩
      intro s v hm
      simp at hm
      exact hm.1
    · rw [play_next_noSession 0 trs st st chat t hp htr]
      refine ⟨rfl, upd_apply _ _ _, rfl, ?_⟩
      intro s v hm
      simp at hm
    · rw [play_next_failed_zero trs st st chat t hp htr]
      refine ⟨rfl, upd_apply _ _ _, rfl, ?_⟩
      intro s v hm
      simp at hm
  | succ f ih =>
    have hp := pick_loop st chat t hlp hnp
    rcases htr : trs.headD TransportResult.ok with _ | _ | _
    · rw [play_next_ok (f + 1) trs st st chat t hp htr]
      refine ⟨rfl, upd_apply _ _ _, rfl, ?_⟩
      intro s v hm
      simp at hm
      exact hm.1
    · rw [play_next_noSession (f + 1) trs st st chat t hp htr]
      refine ⟨rfl, upd_apply _ _ _, rfl, ?_⟩
      intro s v hm
      simp at hm
    · rw [play_next_failed_succ f trs st st chat t hp htr]
      refine ⟨?_, ?_, ?_, ?_⟩
      · exact (ih trs.tail _ (by exact hlp) (by simp [upd])).1
      · exact (ih trs.tail _ (by exact hlp) (by simp [upd])).2.1
      · exact (ih trs.tail _ (by exact hlp) (by simp [upd])).2.2.1
      · intro s v hm
        rcases List.mem_cons.mp hm with h | h
        · simp at h
        · exact (ih trs.tail _ (by exact hlp) (by simp [upd])).2.2.2 s v h

/-- C7 witness: the loop-replay statement at a concrete chat with loop on,
`songA` current and `songB` queued. -/
theorem claim_C7_witness :
    stLoopOn.loop_mode 1 = true
  ∧ stLoopOn.now_playing 1 = some songA
  ∧ ((play_next 2 [TransportResult.ok] stLoopOn 1).1.queues = stLoopOn.queues
      ∧ (play_next 2 [TransportResult.ok] stLoopOn 1).1.now_playing 1 = some songA
      ∧ (play_next 2 [TransportResult.ok] stLoopOn 1).1.loop_mode = stLoopOn.loop_mode
      ∧ ∀ s v, Outcome.playing s v ∈ (play_next 2 [TransportResult.ok] stLoopOn 1).2
          → s = songA) :=
  ⟨rfl, rfl, claim_C7_loop 2 [TransportResult.ok] stLoopOn 1 songA rfl rfl⟩

/-- C8: `setVolume` accepts exactly the integers `1 <= v <= 200`: an
in-range value is stored (whether or not applying it to the transport
succeeds — no rollback), the rest of the state is untouched; an
out-of-range value produces `InvalidVolume` and changes nothing. -/
theorem claim_C8_volume (st : BotState) (chat : Int) (v : Int) (applyOk : Bool) :
    ((1 ≤ v ∧ v ≤ 200) →
        (volume_command st chat v applyOk).1.user_volumes chat = some v
      ∧ (volume_command st chat v applyOk).1.queues = st.queues
      ∧ (volume_command st chat v applyOk).1.now_playing = st.now_playing
      ∧ (volume_command st chat v applyOk).1.loop_mode = st.loop_mode)
  ∧ (¬(1 ≤ v ∧ v ≤ 200) →
      volume_command st chat v applyOk = (st, [Outcome.invalidVolume])) := by
  constructor
  · intro h
    unfold volume_command
    rw [if_pos h]
    cases applyOk <;> simp [upd]
  · intro h
    unfold volume_command
    rw [if_neg h]

/-- C8 witness: `setVolume(chat, 250)` is rejected with the state
untouched; `setVolume(chat, 150)` whose transport application fails still
stores 150. -/
theorem claim_C8_witness :
    (¬((1:Int) ≤ 250 ∧ (250:Int) ≤ 200)
      ∧ volume_command initialState 1 250 true
          = (initialState, [Outcome.invalidVolume]))
  ∧ (((1:Int) ≤ 150 ∧ (150:Int) ≤ 200)
      ∧ (volume_command initialState 1 150 false).1.user_volumes 1 = some 150) :=
  ⟨⟨by decide, (claim_C8_volume initialState 1 250 true).2 (by decide)⟩,
    ⟨by decide, ((claim_C8_volume initialState 1 150 false).1 (by decide)).1⟩⟩

/-- C9: `skip` with nothing playing reports `NothingPlaying` and changes no
state, and with a current track it performs exactly an `advance`
(`play_next`), on both the command path and the inline-button path. -/
theorem claim_C9_skip (fuel : Nat) (trs : List TransportResult) (st : BotState)
    (chat : Int) :
    (st.now_playing chat = none →
        control_skip fuel trs st chat = (st, [Outcome.nothingPlaying])
      ∧ callback_skip fuel trs st chat = (st, [Outcome.nothingPlaying]))
  ∧ (∀ t, st.now_playing chat = some t →
        control_skip fuel trs st chat
          = ((play_next fuel trs st chat).1,
              Outcome.skipping :: (play_next fuel trs st chat).2)
      ∧ callback_skip fuel trs st chat
          = ((play_next fuel trs st chat).1,
              Outcome.skipping :: (play_next fuel trs st chat).2)) := by
  constructor
  · intro h
    constructor <;> simp [control_skip, callback_skip, h]
  · intro t h
    constructor <;> simp [control_skip, callback_skip, h]

/-- C9 witness: on an idle chat both skip paths report nothing playing and
leave the state as is; on a playing chat both are the advance plus the
skipping acknowledgement. -/
theorem claim_C9_witness :
    (initialState.now_playing 1 = none
      ∧ (control_skip 0 [] initialState 1 = (initialState, [Outcome.nothingPlaying])
          ∧ callback_skip 0 [] initialState 1 = (initialState, [Outcome.nothingPlaying])))
  ∧ (stPlayingNoQueue.now_playing 1 = some songA
      ∧ (control_skip 0 [] stPlayingNoQueue 1
            = ((play_next 0 [] stPlayingNoQueue 1).1,
                Outcome.skipping :: (play_next 0 [] stPlayingNoQueue 1).2)
          ∧ callback_skip 0 [] stPlayingNoQueue 1
            = ((play_next 0 [] stPlayingNoQueue 1).1,
                Outcome.skipping :: (play_next 0 [] stPlayingNoQueue 1).2))) :=
  ⟨⟨rfl, (claim_C9_skip 0 [] initialState 1).1 rfl⟩,
    ⟨rfl, (claim_C9_skip 0 [] stPlayingNoQueue 1).2 songA rfl⟩⟩

/-- C10: `stop` (on both paths, whether or not the transport leave
succeeds) never touches the stored per-chat volume, and the next track
played after a stop is started at the stored volume, falling back to the
default of 80 only when no volume was ever stored. -/
theorem claim_C10_volume_frame (st : BotState) (chat : Int) (leaveOk : Bool)
    (fuel : Nat) (song : Song) :
    (control_stop st chat leaveOk).1.user_volumes = st.user_volumes
  ∧ (callback_stop st chat leaveOk).1.user_volumes = st.user_volumes
  ∧ (play_song fuel [TransportResult.ok] (control_stop st chat true).1 chat song).2
      = [Outcome.playing song ((st.user_volumes chat).getD DEFAULT_VOLUME)]
  ∧ DEFAULT_VOLUME = 80 := by
  refine ⟨?_, ?_, ?_, rfl⟩
  · cases leaveOk <;> rfl
  · cases leaveOk <;> rfl
  · rfl

end MusicBot
